import Mathlib

/-
Verification of the inventory-management application core: the dashboard
aggregation (stock classification, counts, percentages, weekly series) and
the pagination window calculator, together with the create/delete mutation
surface. Every definition is a shallow embedding of the corresponding
source function; timestamps are modelled as integer milliseconds on a
fixed-offset (DST-free) civil timeline, JavaScript numbers as exact
rationals, and nullable values as Option.
-/

/-- A product record as selected by the dashboard and inventory pages.
Fields follow the Prisma model: `price` is a decimal, `quantity` a
non-negative integer, `lowStockAt` an optional non-negative integer,
`createdAt` a timestamp in milliseconds. -/
structure Product where
  id : String
  name : String
  price : ℚ
  quantity : Nat
  sku : Option String
  lowStockAt : Option Nat
  createdAt : Int
  userId : String
  deriving DecidableEq

/-- A token of the pagination window: either a literal page number or the
ellipsis marker rendered as three dots. -/
inductive PageToken where
  | page (n : Nat)
  | dots
  deriving DecidableEq

/-- The contiguous increasing range of page numbers from `a` to `b`
inclusive, empty when `b < a`; embeds the for-loop in getVisiblePages. -/
def pageRange (a b : Nat) : List Nat :=
  List.range' a (b + 1 - a)

/-- Embeds getVisiblePages from the Pagination component: `delta = 2`
neighbours on each side of the current page, page 1 first, a leading
ellipsis when `currentPage - delta > 2`, the clamped contiguous range, a
trailing ellipsis when `currentPage + delta < totalPages - 1`, and
`totalPages` last. -/
def getVisiblePages (currentPage totalPages : Nat) : List PageToken :=
  let delta := 2
  let range :=
    (pageRange (max 2 (currentPage - delta))
      (min (totalPages - 1) (currentPage + delta))).map PageToken.page
  let withFirst :=
    if 2 < currentPage - delta then [PageToken.page 1, PageToken.dots]
    else [PageToken.page 1]
  let withLast :=
    if currentPage + delta < totalPages - 1 then
      [PageToken.dots, PageToken.page totalPages]
    else [PageToken.page totalPages]
  withFirst ++ range ++ withLast

/-- Embeds the Pagination component boundary: the guard clause returns
null (here `none`) when `totalPages ≤ 1`, and otherwise the token list
computed by getVisiblePages is rendered. -/
def Pagination (currentPage totalPages : Nat) : Option (List PageToken) :=
  if totalPages ≤ 1 then none else some (getVisiblePages currentPage totalPages)

/-- The page-token sequence as the specification describes it: token 1,
an ellipsis exactly when `currentPage - radius > 2`, the contiguous range
from `max 2 (currentPage - radius)` to `min (totalPages - 1)
(currentPage + radius)`, an ellipsis exactly when `currentPage + radius <
totalPages - 1`, then the token `totalPages`; written from the words of
the spec, for comparison with getVisiblePages. -/
def specWindow (currentPage totalPages : Nat) : List PageToken :=
  [PageToken.page 1]
    ++ (if 2 < currentPage - 2 then [PageToken.dots] else [])
    ++ (pageRange (max 2 (currentPage - 2))
          (min (totalPages - 1) (currentPage + 2))).map PageToken.page
    ++ (if currentPage + 2 < totalPages - 1 then [PageToken.dots] else [])
    ++ [PageToken.page totalPages]

/-- Embeds the JavaScript object spread `{...searchParams, page: String(page)}`
feeding URLSearchParams in getPageUrl: when a `page` key is already
present its value is overridden in place, otherwise the pair is appended. -/
def setParam (sp : List (String × String)) (k v : String) :
    List (String × String) :=
  if sp.any (fun kv => kv.1 = k) then
    sp.map (fun kv => if kv.1 = k then (k, v) else kv)
  else sp ++ [(k, v)]

/-- The query parameters of the URL built by getPageUrl for page `page`:
every caller-supplied parameter together with the overriding page number. -/
def getPageUrlParams (sp : List (String × String)) (page : Nat) :
    List (String × String) :=
  setParam sp "page" (toString page)

/-- Serialises query parameters as URLSearchParams.toString does,
percent-encoding aside: key equals value, joined by ampersands. -/
def serializeParams (sp : List (String × String)) : String :=
  String.intercalate "&" (sp.map (fun kv => kv.1 ++ "=" ++ kv.2))

/-- Embeds getPageUrl: the base URL, a question mark, and the serialised
query string with the page parameter set to `page`. -/
def getPageUrl (baseUrl : String) (sp : List (String × String))
    (page : Nat) : String :=
  baseUrl ++ "?" ++ serializeParams (getPageUrlParams sp page)

/-- Embeds the dashboard totalValue reduction: the sum over all records of
price times quantity. -/
def totalValue (recs : List Product) : ℚ :=
  recs.foldl (fun sum p => sum + p.price * (p.quantity : ℚ)) 0

/-- Embeds the dashboard inStockCount filter: records with quantity
strictly above 5. -/
def inStockCount (recs : List Product) : Nat :=
  (recs.filter (fun p => 5 < p.quantity)).length

/-- Embeds the dashboard lowStockCount filter: records with quantity at
most 5 and at least 1. -/
def lowStockCount (recs : List Product) : Nat :=
  (recs.filter (fun p => p.quantity ≤ 5 ∧ 1 ≤ p.quantity)).length

/-- Embeds the dashboard outOfStockCount filter: records with quantity
exactly 0. -/
def outOfStockCount (recs : List Product) : Nat :=
  (recs.filter (fun p => p.quantity = 0)).length

/-- Embeds Math.round for the nonnegative arguments produced by the
percentage computations: half-up rounding, the floor of the argument plus
one half. JavaScript floats are modelled as exact rationals. -/
def jsRound (x : ℚ) : Int :=
  ⌊x + 1 / 2⌋

/-- Embeds inStockPercentage: the rounded share of in-stock records when
the total is positive, else 0. The totalProducts denominator of the source
is the count of the same user-scoped record set. -/
def inStockPercentage (recs : List Product) : Int :=
  if 0 < recs.length then
    jsRound ((inStockCount recs : ℚ) / (recs.length : ℚ) * 100)
  else 0

/-- Embeds lowStockPercentage: the rounded share of low-stock records when
the total is positive, else 0. -/
def lowStockPercentage (recs : List Product) : Int :=
  if 0 < recs.length then
    jsRound ((lowStockCount recs : ℚ) / (recs.length : ℚ) * 100)
  else 0

/-- Embeds outOfStockPercentage: the rounded share of out-of-stock records
when the total is positive, else 0. -/
def outOfStockPercentage (recs : List Product) : Int :=
  if 0 < recs.length then
    jsRound ((outOfStockCount recs : ℚ) / (recs.length : ℚ) * 100)
  else 0

/-- Embeds the JavaScript expression `o || d` on an optional number: the
default is taken both when the value is absent (null) and when it is 0,
since 0 is falsy. -/
def jsOrNat (o : Option Nat) (d : Nat) : Nat :=
  match o with
  | none => d
  | some t => if t = 0 then d else t

/-- Embeds the stockLevel computation of the recent stock-levels list:
0 for out of stock (quantity 0), 1 for low stock (quantity at most the
threshold `lowStockAt || 5`), 2 for in stock. -/
def stockLevel (p : Product) : Nat :=
  let threshold := jsOrNat p.lowStockAt 5
  if p.quantity = 0 then 0
  else if p.quantity ≤ threshold then 1
  else 2

/-- The per-record stock classification of the specification. -/
inductive StockClassification where
  | outOfStock
  | lowStock
  | inStock
  deriving DecidableEq

/-- The effective threshold as the specification words it: `lowStockAt`
when set, else 5; written from the spec for comparison with the code. -/
def effectiveThreshold (p : Product) : Nat :=
  p.lowStockAt.getD 5

/-- The stock classification as the specification words it: OutOfStock at
quantity 0, LowStock up to the effective threshold, InStock above it;
written from the spec for comparison with the code. -/
def specClassification (p : Product) : StockClassification :=
  if p.quantity = 0 then StockClassification.outOfStock
  else if p.quantity ≤ effectiveThreshold p then StockClassification.lowStock
  else StockClassification.inStock

/-- Milliseconds per calendar day on the fixed-offset timeline. -/
def msPerDay : Int := 86400000

/-- Embeds setHours(0,0,0,0): truncation of a timestamp to the preceding
midnight. Integer division on Int rounds toward negative infinity for the
positive divisor, matching calendar truncation also before the epoch. -/
def dayStart (t : Int) : Int :=
  t / msPerDay * msPerDay

/-- Embeds the window start of week `i` (counting back from `now`): shift
back `i × 7` days, then truncate to midnight. -/
def weekStart (now : Int) (i : Nat) : Int :=
  dayStart (now - (i : Int) * 7 * msPerDay)

/-- Embeds the window end of week `i`: six days after the window start,
then setHours(23,59,59,999), the last millisecond of that day. -/
def weekEnd (now : Int) (i : Nat) : Int :=
  weekStart now i + 6 * msPerDay + (msPerDay - 1)

/-- Embeds the filter predicate of the weekly loop: the record creation
time lies between the window start and the window end inclusive. -/
def inWeek (now : Int) (i : Nat) (t : Int) : Prop :=
  weekStart now i ≤ t ∧ t ≤ weekEnd now i

instance (now : Int) (i : Nat) (t : Int) : Decidable (inWeek now i t) :=
  instDecidableAnd

/-- Civil-calendar conversion of a day count since 1970-01-01 to
(year, month, day), the arithmetic of the proleptic Gregorian calendar
underlying the getMonth and getDate accessors. -/
def civilFromDays (z0 : Int) : Int × Int × Int :=
  let z := z0 + 719468
  let era := z / 146097
  let doe := z - era * 146097
  let yoe := (doe - doe / 1460 + doe / 36524 - doe / 146096) / 365
  let y := yoe + era * 400
  let doy := doe - (365 * yoe + yoe / 4 - yoe / 100)
  let mp := (5 * doy + 2) / 153
  let d := doy - (153 * mp + 2) / 5 + 1
  let m := if mp < 10 then mp + 3 else mp - 9
  (if m ≤ 2 then y + 1 else y, m, d)

/-- Embeds getMonth() + 1: the one-based month of a timestamp. -/
def monthOf (t : Int) : Int :=
  (civilFromDays (t / msPerDay)).2.1

/-- Embeds getDate(): the day of the month of a timestamp. -/
def dayOfMonthOf (t : Int) : Int :=
  (civilFromDays (t / msPerDay)).2.2

/-- Embeds String(n).padStart(2, "0") for the small nonnegative numbers
fed to the week label. -/
def pad2 (n : Int) : String :=
  if n < 10 then "0" ++ toString n else toString n

/-- Embeds the weekLabel template literal: zero-padded month, a slash,
zero-padded day of month, of the window start. -/
def weekLabel (ws : Int) : String :=
  pad2 (monthOf ws) ++ "/" ++ pad2 (dayOfMonthOf ws)

/-- One entry of the weekly chart data: the label and the number of
records created in that week, with the field names of the source. -/
structure WeeklyBucket where
  week : String
  products : Nat
  deriving DecidableEq

/-- Embeds the weeklyProductsData loop: for `i` from 11 down to 0, push
the bucket of week `i` (label of the window start, count of the records
whose creation time falls in the window). -/
def weeklyProductsData (recs : List Product) (now : Int) : List WeeklyBucket :=
  (List.range 12).reverse.map (fun i =>
    { week := weekLabel (weekStart now i)
      products := (recs.filter (fun p => inWeek now i p.createdAt)).length })

/-- The value of a digit string, `none` when a non-digit occurs; the
empty list yields 0, as the digit part of a JavaScript decimal literal
may be empty on one side of the dot. -/
def digitsVal (cs : List Char) : Option Nat :=
  cs.foldl (fun acc c =>
    match acc with
    | none => none
    | some n => if c.isDigit then some (10 * n + (c.toNat - 48)) else none)
    (some 0)

/-- Splits a character list at the first dot: the part before it and,
when a dot occurs, the part after it (a second dot stays in the tail and
fails the digit check, as it makes the literal NaN). -/
def splitDot : List Char → List Char × Option (List Char)
  | [] => ([], none)
  | c :: rest =>
    if c = '.' then ([], some rest)
    else
      let (w, f) := splitDot rest
      (c :: w, f)

/-- The value of an unsigned decimal literal: digits, or digits on either
side of a single dot with at least one digit present. -/
def decimalCore (cs : List Char) : Option ℚ :=
  match splitDot cs with
  | (w, none) => if w = [] then none else (digitsVal w).map (fun n => (n : ℚ))
  | (w, some f) =>
    if w = [] ∧ f = [] then none
    else
      match digitsVal w, digitsVal f with
      | some n, some m => some ((n : ℚ) + (m : ℚ) / (10 : ℚ) ^ f.length)
      | _, _ => none

/-- Embeds the Number coercion of z.coerce.number on a form value: null
coerces to 0, the empty string to 0, a decimal literal with an optional
leading minus to its value, anything else to NaN (`none`). Exponent,
hexadecimal and whitespace forms of the JavaScript Number grammar are
outside the modelled input language. -/
def jsNumber (v : Option String) : Option ℚ :=
  match v with
  | none => some 0
  | some s =>
    match s.data with
    | [] => some 0
    | '-' :: rest => (decimalCore rest).map (fun q => -q)
    | cs => decimalCore cs

/-- Embeds `formData.get(k) || undefined`: null and the empty string are
falsy and become undefined. -/
def jsOrUndef (v : Option String) : Option String :=
  match v with
  | none => none
  | some s => if s = "" then none else some s

/-- The successfully validated create-product input. -/
structure ParsedProduct where
  name : String
  price : ℚ
  quantity : Nat
  sku : Option String
  lowStockAt : Option Nat
  deriving DecidableEq

/-- Embeds ProductSchema.safeParse as invoked by createProduct: name must
be a present, non-empty string; price must coerce to a nonnegative
number; quantity must coerce to a nonnegative integer; sku is optional.
The schema also declares an optional nonnegative integer lowStockAt, but
the safeParse call in createProduct supplies only name, price, quantity
and sku, so the parsed lowStockAt is always absent. -/
def productSchemaParse (nameV priceV quantityV skuV : Option String) :
    Option ParsedProduct :=
  match nameV with
  | none => none
  | some name =>
    if name.length < 1 then none
    else
      match jsNumber priceV with
      | none => none
      | some price =>
        if price < 0 then none
        else
          match jsNumber quantityV with
          | none => none
          | some q =>
            if q.den = 1 ∧ 0 ≤ q.num then
              some { name := name, price := price, quantity := q.num.toNat,
                     sku := skuV, lowStockAt := none }
            else none

/-- The two failure modes of the create action: the thrown validation
error and the thrown persistence failure. -/
inductive CreateError where
  | validationError
  | mutationFailure
  deriving DecidableEq

/-- Embeds createProduct: the form fields name, price, quantity and sku
(empty sku defaulted to undefined) are validated against the product
schema; on validation failure the action throws the validation error and
the store is untouched; otherwise the record is written for the current
user (the store supplies the id and creation time), and a failing write
surfaces as the distinct mutation failure. -/
def createProduct (uid : String) (fd : String → Option String)
    (newId : String) (createdNow : Int) (writeFails : Bool)
    (db : List Product) : Except CreateError (List Product) :=
  match productSchemaParse (fd "name") (fd "price") (fd "quantity")
      (jsOrUndef (fd "sku")) with
  | none => Except.error CreateError.validationError
  | some parsed =>
    if writeFails then Except.error CreateError.mutationFailure
    else
      let row : Product :=
        { id := newId, name := parsed.name, price := parsed.price,
          quantity := parsed.quantity, sku := parsed.sku,
          lowStockAt := parsed.lowStockAt, createdAt := createdNow,
          userId := uid }
      Except.ok (db ++ [row])

/-- Embeds deleteProduct: the submitted id (`String(formData.get("id") || "")`,
the empty string when absent) and the current user id scope the
deleteMany call; every record matching both is removed, the rest of the
store is untouched, and no error is ever signalled. -/
def deleteProduct (uid : String) (fd : String → Option String)
    (db : List Product) : List Product :=
  let id := (fd "id").getD ""
  db.filter (fun p => ¬(p.id = id ∧ p.userId = uid))

/-- A record with the given quantity and no optional fields, for the
worked examples. -/
def plainProduct (q : Nat) : Product :=
  { id := "", name := "", price := 0, quantity := q, sku := none,
    lowStockAt := none, createdAt := 0, userId := "" }

/-- The seven-record example of the specification: quantities
0, 3, 3, 6, 6, 6, 10 and no lowStockAt set. -/
def ex7 : List Product :=
  [plainProduct 0, plainProduct 3, plainProduct 3, plainProduct 6,
   plainProduct 6, plainProduct 6, plainProduct 10]

/-- The boundary record of the specification: lowStockAt 10 and
quantity 10. -/
def boundaryRecord : Product :=
  { plainProduct 10 with lowStockAt := some 10 }

/-- A record with lowStockAt set to 0 and quantity 3: the set threshold
is 0, but 0 is falsy in JavaScript, so `lowStockAt || 5` defaults it
to 5. -/
def zeroThresholdRecord : Product :=
  { plainProduct 3 with lowStockAt := some 0 }

/-- The create form of the worked example: every field supplied,
including a lowStockAt of 2. -/
def exForm : String → Option String :=
  fun k =>
    if k = "name" then some "Widget"
    else if k = "price" then some "10"
    else if k = "quantity" then some "3"
    else if k = "sku" then some "SKU1"
    else if k = "lowStockAt" then some "2"
    else none

/-- A create form with an empty name, failing validation. -/
def badForm : String → Option String :=
  fun k => if k = "name" then some "" else none

/-- A delete form targeting the id "x". -/
def deleteForm : String → Option String :=
  fun k => if k = "id" then some "x" else none

/-- The record created from the worked example form: every supplied field
except lowStockAt, which the action drops. -/
def row7 : Product :=
  { id := "p1", name := "Widget", price := 10, quantity := 3,
    sku := some "SKU1", lowStockAt := none, createdAt := 0, userId := "u1" }

instance {e a : Type} [DecidableEq e] [DecidableEq a] :
    DecidableEq (Except e a) :=
  fun x y =>
    match x, y with
    | Except.ok u, Except.ok v =>
      if h : u = v then isTrue (by rw [h])
      else isFalse (fun hh => h (Except.ok.inj hh))
    | Except.error u, Except.error v =>
      if h : u = v then isTrue (by rw [h])
      else isFalse (fun hh => h (Except.error.inj hh))
    | Except.ok _, Except.error _ => isFalse (fun hh => Except.noConfusion hh)
    | Except.error _, Except.ok _ => isFalse (fun hh => Except.noConfusion hh)

/-- The three values of stockLevel characterised: 0 exactly at quantity 0. -/
theorem stockLevel_eq_zero_iff (p : Product) :
    stockLevel p = 0 ↔ p.quantity = 0 := by
  simp only [stockLevel]
  split_ifs with h1 h2 <;> simp [h1]

/-- The three values of stockLevel characterised: 1 exactly on the low
band up to the falsy-defaulted threshold. -/
theorem stockLevel_eq_one_iff (p : Product) :
    stockLevel p = 1 ↔ 1 ≤ p.quantity ∧ p.quantity ≤ jsOrNat p.lowStockAt 5 := by
  simp only [stockLevel]
  split_ifs with h1 h2 <;> simp [h1] <;> omega

/-- The three values of stockLevel characterised: 2 exactly above the
falsy-defaulted threshold. -/
theorem stockLevel_eq_two_iff (p : Product) :
    stockLevel p = 2 ↔ jsOrNat p.lowStockAt 5 < p.quantity := by
  simp only [stockLevel]
  split_ifs with h1 h2 <;> simp [h1] <;> omega

/-- C1 counterexample, at two concrete records. First, the record with
lowStockAt 10 and quantity 10 is LowStock under the claimed
classification, yet the dashboard breakdown counts it as in stock and
not as low stock, so that classification does not govern the breakdown.
Second, the record with lowStockAt set to 0 and quantity 3 is InStock
under the claimed classification (its effective threshold is the set
value 0), yet the recent stock-levels list computes level 1 (low),
because `lowStockAt || 5` treats the set 0 as falsy — so the claimed
null-default classification does not govern the recent list either. -/
theorem c1_classification_counterexample :
    (specClassification boundaryRecord = StockClassification.lowStock ∧
      inStockCount [boundaryRecord] = 1 ∧
      lowStockCount [boundaryRecord] = 0) ∧
    (specClassification zeroThresholdRecord = StockClassification.inStock ∧
      stockLevel zeroThresholdRecord = 1) := by
  refine ⟨⟨by decide, by decide, by decide⟩, by decide, by decide⟩

/-- C1 amended: the recent stock-levels list classifies each record with
threshold `lowStockAt || 5` (falsy default, so also when lowStockAt is 0):
level 0 exactly at quantity 0, level 1 exactly when 0 < quantity ≤
threshold, level 2 exactly above it, and the boundary record with
lowStockAt 10 and quantity 10 is classified low; the dashboard breakdown
instead classifies every record with the fixed threshold 5, as if
lowStockAt were unset. -/
theorem c1_classification :
    (∀ p : Product,
      (stockLevel p = 0 ↔ p.quantity = 0) ∧
      (stockLevel p = 1 ↔ 1 ≤ p.quantity ∧ p.quantity ≤ jsOrNat p.lowStockAt 5) ∧
      (stockLevel p = 2 ↔ jsOrNat p.lowStockAt 5 < p.quantity)) ∧
    stockLevel boundaryRecord = 1 ∧
    (∀ recs : List Product,
      inStockCount recs =
        (recs.filter (fun q => stockLevel { q with lowStockAt := none } = 2)).length ∧
      lowStockCount recs =
        (recs.filter (fun q => stockLevel { q with lowStockAt := none } = 1)).length ∧
      outOfStockCount recs =
        (recs.filter (fun q => stockLevel { q with lowStockAt := none } = 0)).length) := by
  refine ⟨fun p => ⟨stockLevel_eq_zero_iff p, stockLevel_eq_one_iff p,
    stockLevel_eq_two_iff p⟩, by decide, fun recs => ⟨?_, ?_, ?_⟩⟩
  · unfold inStockCount
    congr 1
    apply List.filter_congr
    intro q _
    simp only [decide_eq_decide]
    rw [stockLevel_eq_two_iff]
    simp [jsOrNat]
  · unfold lowStockCount
    congr 1
    apply List.filter_congr
    intro q _
    simp only [decide_eq_decide]
    rw [stockLevel_eq_one_iff]
    simp [jsOrNat]
    omega
  · unfold outOfStockCount
    congr 1
    apply List.filter_congr
    intro q _
    simp only [decide_eq_decide]
    rw [stockLevel_eq_zero_iff]

/-- C2 counterexample: for one single page the window computation does
not return the one-element sequence. -/
theorem c2_single_page_window_not_singleton :
    getVisiblePages 1 1 ≠ [PageToken.page 1] := by decide

/-- C2 amended: for currentPage 1 and totalPages 1 the window computation
yields the token 1 twice (page 1 and the last page coincide and are both
pushed); the Pagination component suppresses rendering whenever
totalPages ≤ 1, so the duplicate is never rendered. -/
theorem c2_single_page :
    getVisiblePages 1 1 = [PageToken.page 1, PageToken.page 1] ∧
    (∀ currentPage totalPages : Nat, totalPages ≤ 1 →
      Pagination currentPage totalPages = none) := by
  refine ⟨by decide, fun cp tp h => ?_⟩
  simp [Pagination, h]

/-- C2 witness: the amended theorem applied at totalPages 1. -/
theorem c2_single_page_witness :
    (1 : Nat) ≤ 1 ∧ Pagination 1 1 = none :=
  ⟨by decide, c2_single_page.2 1 1 (by decide)⟩

/-- C3: for every current page and total page count in the contract
domain (current between 1 and total, at least two pages) the code window
equals the token sequence the specification describes with radius 2, and
the worked example computeWindow(5, 10, 2) yields
[1, "...", 3, 4, 5, 6, 7, "...", 10]. -/
theorem c3_window_structure :
    (∀ currentPage totalPages : Nat,
      1 ≤ currentPage → currentPage ≤ totalPages → 2 ≤ totalPages →
      getVisiblePages currentPage totalPages = specWindow currentPage totalPages) ∧
    getVisiblePages 5 10 =
      [PageToken.page 1, PageToken.dots, PageToken.page 3, PageToken.page 4,
       PageToken.page 5, PageToken.page 6, PageToken.page 7, PageToken.dots,
       PageToken.page 10] := by
  constructor
  · intro cp tp _ _ _
    simp only [getVisiblePages, specWindow]
    by_cases h1 : 2 < cp - 2 <;> by_cases h2 : cp + 2 < tp - 1 <;>
      simp [h1, h2]
  · decide

/-- C3 witness: the structural equality applied at the worked example. -/
theorem c3_window_structure_witness :
    1 ≤ 5 ∧ 5 ≤ 10 ∧ 2 ≤ 10 ∧ getVisiblePages 5 10 = specWindow 5 10 :=
  ⟨by decide, by decide, by decide,
    c3_window_structure.1 5 10 (by decide) (by decide) (by decide)⟩

/-- C4: for every record set, the three stock counts of the dashboard
breakdown partition the records, so their sum is the number of records. -/
theorem c4_counts_partition :
    ∀ recs : List Product,
      inStockCount recs + lowStockCount recs + outOfStockCount recs =
        recs.length := by
  intro recs
  induction recs with
  | nil => rfl
  | cons p rest ih =>
    simp only [inStockCount, lowStockCount, outOfStockCount,
      List.filter_cons, List.length_cons] at ih ⊢
    by_cases h5 : 5 < p.quantity <;> by_cases h0 : p.quantity = 0 <;>
      by_cases hlow : p.quantity ≤ 5 ∧ 1 ≤ p.quantity <;>
        simp [h5, h0, hlow] at ih ⊢ <;> omega

/-- Evaluation of the in-stock percentage on the seven-record example. -/
theorem inStockPercentage_ex7 : inStockPercentage ex7 = 57 := by
  have hin : inStockCount ex7 = 4 := by decide
  have hlen : ex7.length = 7 := by decide
  rw [inStockPercentage, hin, hlen, jsRound]
  norm_num [Int.floor_eq_iff]

/-- Evaluation of the low-stock percentage on the seven-record example. -/
theorem lowStockPercentage_ex7 : lowStockPercentage ex7 = 29 := by
  have hlow : lowStockCount ex7 = 2 := by decide
  have hlen : ex7.length = 7 := by decide
  rw [lowStockPercentage, hlow, hlen, jsRound]
  norm_num [Int.floor_eq_iff]

/-- Evaluation of the out-of-stock percentage on the seven-record
example. -/
theorem outOfStockPercentage_ex7 : outOfStockPercentage ex7 = 14 := by
  have hout : outOfStockCount ex7 = 1 := by decide
  have hlen : ex7.length = 7 := by decide
  rw [outOfStockPercentage, hout, hlen, jsRound]
  norm_num [Int.floor_eq_iff]

/-- C6 counterexample: on the seven-record example the in-stock
percentage is 57, not the 14 the claim pairs with it (the 14/29/57 values
belong to the out-of-stock, low-stock and in-stock shares respectively). -/
theorem c6_in_stock_pct_not_14 :
    inStockPercentage ex7 = 57 ∧ inStockPercentage ex7 ≠ 14 := by
  have h := inStockPercentage_ex7
  exact ⟨h, by rw [h]; decide⟩

/-- C6 amended: with a positive total each percentage is the half-up
rounding of the exact fraction count over total times 100 (floats
modelled as exact rationals), computed independently per count; with
total 0 all three are 0; and on the seven-record example with quantities
0, 3, 3, 6, 6, 6, 10 the percentages are 57, 29 and 14 for the in-stock,
low-stock and out-of-stock shares respectively. -/
theorem c6_percentages :
    (∀ recs : List Product, 0 < recs.length →
      inStockPercentage recs =
        jsRound ((inStockCount recs : ℚ) / (recs.length : ℚ) * 100) ∧
      lowStockPercentage recs =
        jsRound ((lowStockCount recs : ℚ) / (recs.length : ℚ) * 100) ∧
      outOfStockPercentage recs =
        jsRound ((outOfStockCount recs : ℚ) / (recs.length : ℚ) * 100)) ∧
    (∀ recs : List Product, recs.length = 0 →
      inStockPercentage recs = 0 ∧ lowStockPercentage recs = 0 ∧
      outOfStockPercentage recs = 0) ∧
    inStockPercentage ex7 = 57 ∧ lowStockPercentage ex7 = 29 ∧
    outOfStockPercentage ex7 = 14 := by
  refine ⟨fun recs h => ?_, fun recs h => ?_,
    inStockPercentage_ex7, lowStockPercentage_ex7, outOfStockPercentage_ex7⟩
  · simp [inStockPercentage, lowStockPercentage, outOfStockPercentage, h]
  · simp [inStockPercentage, lowStockPercentage, outOfStockPercentage, h]

/-- C6 witness: the amended theorem applied to the seven-record example
and to the empty record set. -/
theorem c6_percentages_witness :
    0 < ex7.length ∧
    inStockPercentage ex7 =
      jsRound ((inStockCount ex7 : ℚ) / (ex7.length : ℚ) * 100) ∧
    ([] : List Product).length = 0 ∧ inStockPercentage [] = 0 :=
  ⟨by decide, (c6_percentages.1 ex7 (by decide)).1, rfl,
    (c6_percentages.2.1 [] rfl).1⟩

/-- C7: evaluating the create action at the worked example form, which
supplies a lowStockAt of 2, yields a persisted record whose lowStockAt is
absent — the action validates and persists name, price, quantity and sku
but never reads lowStockAt from the form, contradicting the contract that
all supplied fields are persisted; validation failure (empty name) and
persistence failure surface as the two distinct errors, and a validation
failure creates no record. -/
theorem c7_lowStockAt_dropped :
    exForm "lowStockAt" = some "2" ∧
    createProduct "u1" exForm "p1" 0 false [] = Except.ok [row7] ∧
    row7.lowStockAt = none ∧
    createProduct "u1" badForm "p1" 0 false [] =
      Except.error CreateError.validationError ∧
    createProduct "u1" exForm "p1" 0 true [] =
      Except.error CreateError.mutationFailure :=
  ⟨rfl, by decide, rfl, by decide, by decide⟩

/-- C8: the delete action removes exactly the records matching both the
submitted id and the current user id; when nothing matches the store is
returned unchanged, and the action signals no error for any input. -/
theorem c8_delete_scoped :
    ∀ (uid : String) (fd : String → Option String) (db : List Product),
      (∀ p : Product, p ∈ deleteProduct uid fd db ↔
        p ∈ db ∧ ¬(p.id = (fd "id").getD "" ∧ p.userId = uid)) ∧
      ((∀ p ∈ db, ¬(p.id = (fd "id").getD "" ∧ p.userId = uid)) →
        deleteProduct uid fd db = db) := by
  intro uid fd db
  constructor
  · intro p
    simp [deleteProduct, List.mem_filter]
    tauto
  · intro h
    simp only [deleteProduct]
    apply List.filter_eq_self.mpr
    intro p hp
    have := h p hp
    simp only [decide_eq_true_eq]
    tauto

/-- C8 witness: deleting an id owned by nobody leaves a one-record store
unchanged. -/
theorem c8_delete_scoped_witness :
    (∀ p ∈ [plainProduct 3],
      ¬(p.id = ((deleteForm "id").getD "") ∧ p.userId = "u1")) ∧
    deleteProduct "u1" deleteForm [plainProduct 3] = [plainProduct 3] :=
  ⟨by decide, (c8_delete_scoped "u1" deleteForm [plainProduct 3]).2 (by decide)⟩

/-- C9: for every page number and caller-supplied parameter map, the
navigation URL keeps every parameter other than the page number with its
value unchanged, its page parameter is exactly the page number (every
pair under the page key carries that value), and the URL is the base, a
question mark and the serialised parameters. -/
theorem c9_page_url_preserves_params :
    ∀ (sp : List (String × String)) (n : Nat),
      (∀ kv ∈ sp, kv.1 ≠ "page" → kv ∈ getPageUrlParams sp n) ∧
      ("page", toString n) ∈ getPageUrlParams sp n ∧
      (∀ v : String, ("page", v) ∈ getPageUrlParams sp n → v = toString n) ∧
      (∀ baseUrl : String, getPageUrl baseUrl sp n =
        baseUrl ++ "?" ++ serializeParams (getPageUrlParams sp n)) := by
  intro sp n
  refine ⟨?_, ?_, ?_, fun b => rfl⟩
  all_goals simp only [getPageUrlParams, setParam]
  · intro kv hkv hne
    by_cases h : sp.any (fun kv => kv.1 = "page") = true
    · rw [if_pos h]
      exact List.mem_map.mpr ⟨kv, hkv, by simp [hne]⟩
    · rw [if_neg h]
      exact List.mem_append_left _ hkv
  · by_cases h : sp.any (fun kv => kv.1 = "page") = true
    · rw [if_pos h]
      rcases List.any_eq_true.mp h with ⟨kv, hkv, hk⟩
      simp only [decide_eq_true_eq] at hk
      exact List.mem_map.mpr ⟨kv, hkv, by simp [hk]⟩
    · rw [if_neg h]
      exact List.mem_append_right _ (by simp)
  · intro v hv
    by_cases h : sp.any (fun kv => kv.1 = "page") = true
    · rw [if_pos h] at hv
      rcases List.mem_map.mp hv with ⟨kv, hkv, heq⟩
      by_cases hk : kv.1 = "page"
      · rw [if_pos hk] at heq
        injection heq with h1 h2
        exact h2.symm
      · rw [if_neg hk] at heq
        rw [heq] at hk
        exact absurd rfl hk
    · rw [if_neg h] at hv
      rcases List.mem_append.mp hv with hin | hin
      · exact absurd (List.any_eq_true.mpr ⟨("page", v), hin, by simp⟩) h
      · simpa using hin

/-- C9 witness: the preservation theorem applied to a concrete query. -/
theorem c9_page_url_preserves_params_witness :
    ("q", "abc") ∈ getPageUrlParams [("q", "abc")] 2 ∧
    ("page", toString 2) ∈ getPageUrlParams [("q", "abc")] 2 :=
  ⟨(c9_page_url_preserves_params [("q", "abc")] 2).1 ("q", "abc")
      (by decide) (by decide),
    (c9_page_url_preserves_params [("q", "abc")] 2).2.1⟩

/-- Truncation to midnight commutes with shifting by whole days. -/
theorem dayStart_sub_mul (t k : Int) :
    dayStart (t - k * msPerDay) = dayStart t - k * msPerDay := by
  unfold dayStart msPerDay
  have h : (t - k * 86400000) / 86400000 = t / 86400000 - k := by
    have h2 := Int.add_mul_ediv_right t (-k)
      (by norm_num : (86400000 : Int) ≠ 0)
    rw [show t + -k * 86400000 = t - k * 86400000 by ring] at h2
    rw [h2]
    ring
  rw [h]
  ring

/-- The window start of week `i` is the anchor day start shifted back by
`7 i` whole days. -/
theorem weekStart_eq (now : Int) (i : Nat) :
    weekStart now i = dayStart now - (i : Int) * 7 * msPerDay :=
  dayStart_sub_mul now ((i : Int) * 7)

/-- The older of two weekly windows ends strictly before the newer one
starts. -/
theorem weekEnd_lt_weekStart (now : Int) {i j : Nat} (hij : i < j) :
    weekEnd now j < weekStart now i := by
  unfold weekEnd
  rw [weekStart_eq, weekStart_eq]
  unfold msPerDay
  have hc : (i : Int) < (j : Int) := by exact_mod_cast hij
  omega

/-- No instant lies in two distinct weekly windows. -/
theorem inWeek_exclusive (now t : Int) {i j : Nat} (hne : i ≠ j) :
    ¬(inWeek now i t ∧ inWeek now j t) := by
  rintro ⟨⟨hi1, hi2⟩, hj1, hj2⟩
  rcases Nat.lt_or_ge i j with h | h
  · have hd := weekEnd_lt_weekStart now h
    omega
  · have hj : j < i := by omega
    have hd := weekEnd_lt_weekStart now hj
    omega

/-- The bucket of week `i` sits at position `11 - i` of the series. -/
theorem weeklyProductsData_get (recs : List Product) (now : Int) {i : Nat}
    (h : i ≤ 11) :
    (weeklyProductsData recs now)[11 - i]? =
      some { week := weekLabel (weekStart now i)
             products :=
               (recs.filter (fun p => inWeek now i p.createdAt)).length } := by
  have hr : (List.range 12).reverse = [11, 10, 9, 8, 7, 6, 5, 4, 3, 2, 1, 0] :=
    by decide
  unfold weeklyProductsData
  rw [hr]
  interval_cases i <;> rfl

/-- The weekly series does not depend on the order of the records. -/
theorem weeklyProductsData_perm (now : Int) {recs recs2 : List Product}
    (h : recs.Perm recs2) :
    weeklyProductsData recs now = weeklyProductsData recs2 now := by
  unfold weeklyProductsData
  apply List.map_congr_left
  intro i _
  congr 1
  exact (h.filter _).length_eq

/-- An instant older than the oldest window start lies in no window. -/
theorem old_out_of_windows (now t : Int) (hold : t < weekStart now 11)
    {i : Nat} (hi : i ≤ 11) : ¬ inWeek now i t := by
  rintro ⟨h1, _⟩
  have hws : weekStart now 11 ≤ weekStart now i := by
    rw [weekStart_eq, weekStart_eq]
    unfold msPerDay
    have hc : (i : Int) ≤ 11 := by exact_mod_cast hi
    omega
  omega

/-- C5: for every record set and anchor, the weekly series has exactly 12
buckets ordered oldest to newest; the bucket at position 11 − i carries
the MM/DD label of the window start of week i (the anchor shifted back
7 i days and truncated to midnight) and counts exactly the records whose
creation time lies between that window start and the window end (start
plus 6 days at 23:59:59.999) inclusive; the series does not depend on the
record order; and a record older than all 12 windows is counted in none
of them. -/
theorem c5_weekly_series :
    ∀ (recs : List Product) (now : Int),
      (weeklyProductsData recs now).length = 12 ∧
      (∀ i : Nat, i ≤ 11 →
        (weeklyProductsData recs now)[11 - i]? =
          some { week := weekLabel (weekStart now i)
                 products :=
                   (recs.filter (fun p => inWeek now i p.createdAt)).length } ∧
        weekStart now i = dayStart (now - (i : Int) * 7 * msPerDay) ∧
        weekEnd now i = weekStart now i + 6 * msPerDay + (msPerDay - 1)) ∧
      (∀ recs2 : List Product, recs.Perm recs2 →
        weeklyProductsData recs now = weeklyProductsData recs2 now) ∧
      (∀ p ∈ recs, p.createdAt < weekStart now 11 →
        ∀ i : Nat, i ≤ 11 → ¬ inWeek now i p.createdAt) := by
  intro recs now
  refine ⟨?_, fun i hi => ⟨weeklyProductsData_get recs now hi, rfl, rfl⟩,
    fun recs2 h => weeklyProductsData_perm now h,
    fun p _ hold i hi => old_out_of_windows now p.createdAt hold hi⟩
  unfold weeklyProductsData
  simp

/-- C5 witness: the series theorem applied to the empty record set at
anchor 0, read at the oldest bucket. -/
theorem c5_weekly_series_witness :
    (weeklyProductsData [] 0).length = 12 ∧
    (weeklyProductsData [] 0)[0]? =
      some { week := weekLabel (weekStart 0 11), products := 0 } :=
  ⟨(c5_weekly_series [] 0).1, ((c5_weekly_series [] 0).2.1 11 (by decide)).1⟩

/-- The sum of a constant-zero map is zero. -/
theorem sum_map_zero (idx : List Nat) :
    (idx.map (fun _ => (0 : Nat))).sum = 0 := by
  induction idx with
  | nil => rfl
  | cons a l ih => simp [ih]

/-- Adding a record to the filtered counts adds, across the index list,
exactly the number of indices whose predicate the record satisfies. -/
theorem sum_map_filter_cons {α : Type} (p : Nat → α → Bool) (idx : List Nat)
    (a : α) (rest : List α) :
    (idx.map (fun i => ((a :: rest).filter (p i)).length)).sum =
      idx.countP (fun i => p i a) +
        (idx.map (fun i => (rest.filter (p i)).length)).sum := by
  induction idx with
  | nil => rfl
  | cons i idx ih =>
    simp only [List.map_cons, List.sum_cons, List.countP_cons]
    rw [ih, List.filter_cons]
    by_cases h : p i a <;> simp [h] <;> omega

/-- A predicate satisfied by at most one common index holds at most once
along a duplicate-free index list. -/
theorem countP_le_one_of_exclusive (p : Nat → Bool) :
    ∀ idx : List Nat, idx.Nodup →
      (∀ i ∈ idx, ∀ j ∈ idx, p i = true → p j = true → i = j) →
      idx.countP p ≤ 1 := by
  intro idx
  induction idx with
  | nil => intro _ _; simp
  | cons a l ih =>
    intro hnd hx
    rw [List.countP_cons]
    by_cases h : p a = true
    · have hz : l.countP p = 0 := by
        rw [List.countP_eq_zero]
        intro b hb hpb
        have hba : b = a :=
          hx b (List.mem_cons_of_mem _ hb) a (List.mem_cons_self _ _) hpb h
        subst hba
        exact absurd hb (List.nodup_cons.mp hnd).1
      simp [hz, h]
    · have hle : l.countP p ≤ 1 := ih (List.nodup_cons.mp hnd).2
        (fun i hi j hj => hx i (List.mem_cons_of_mem _ hi)
          j (List.mem_cons_of_mem _ hj))
      simp [h]
      omega

/-- When each record satisfies at most one of the indexed predicates, the
filtered counts sum to at most the record count. -/
theorem sum_counts_le {α : Type} (p : Nat → α → Bool) (idx : List Nat)
    (hnd : idx.Nodup)
    (hx : ∀ a : α, ∀ i ∈ idx, ∀ j ∈ idx,
      p i a = true → p j a = true → i = j) :
    ∀ recs : List α,
      (idx.map (fun i => (recs.filter (p i)).length)).sum ≤ recs.length := by
  intro recs
  induction recs with
  | nil =>
    simp only [List.filter_nil, List.length_nil]
    simp [sum_map_zero]
  | cons a rest ih =>
    rw [sum_map_filter_cons]
    have h1 : idx.countP (fun i => p i a) ≤ 1 :=
      countP_le_one_of_exclusive _ idx hnd (fun i hi j hj => hx a i hi j hj)
    simp only [List.length_cons]
    omega

/-- C10: the 12 weekly windows are pairwise disjoint — the older of two
windows ends strictly before the newer one starts, no creation time lies
in two distinct windows — so every record is counted in at most one
bucket and the bucket counts sum to at most the number of records. -/
theorem c10_weekly_windows_disjoint :
    ∀ now : Int,
      (∀ i j : Nat, i < j → j ≤ 11 → weekEnd now j < weekStart now i) ∧
      (∀ t : Int, ∀ i j : Nat, i ≠ j →
        ¬(inWeek now i t ∧ inWeek now j t)) ∧
      (∀ recs : List Product,
        ((weeklyProductsData recs now).map (fun b => b.products)).sum ≤
          recs.length) := by
  intro now
  refine ⟨fun i j hij _ => weekEnd_lt_weekStart now hij,
    fun t i j hne => inWeek_exclusive now t hne, fun recs => ?_⟩
  unfold weeklyProductsData
  rw [List.map_map]
  show ((List.range 12).reverse.map
      (fun i =>
        (recs.filter (fun x => decide (inWeek now i x.createdAt))).length)).sum
    ≤ recs.length
  refine sum_counts_le _ _ (List.nodup_reverse.mpr (List.nodup_range 12))
    ?_ recs
  intro a i _ j _ hpi hpj
  by_contra hne
  exact inWeek_exclusive now a.createdAt hne
    ⟨of_decide_eq_true hpi, of_decide_eq_true hpj⟩

/-- C10 witness: the disjointness theorem applied to the two newest
windows at anchor 0 and to the empty record set. -/
theorem c10_weekly_windows_disjoint_witness :
    0 < 1 ∧ 1 ≤ 11 ∧ weekEnd 0 1 < weekStart 0 0 ∧
    ((weeklyProductsData [] 0).map (fun b => b.products)).sum ≤
      ([] : List Product).length :=
  ⟨by decide, by decide, (c10_weekly_windows_disjoint 0).1 0 1 (by decide)
      (by decide),
    (c10_weekly_windows_disjoint 0).2.2 []⟩
